import Mathlib

/-!
Verification of the lingvatrans client library (`lingvatrans/client.py`,
`lingvatrans/models.py`) against its natural-language specification.

The code is shallowly embedded: the language normalizer, the response-to-result
mapping of `translate` / `detect`, the list forms, and the session lifecycle
(`close`, `_ensure_session`, `change_proxy`) become pure Lean functions.
HTTP responses are inputs: a call is modelled as a function of the response
the server would return. The static language tables live in
`lingvatrans/constants.py`, which is not part of the sources at hand, so they
are modelled from the description of them in the specification.
-/

namespace Lingvatrans

/-- Modelled from the spec: `constants.py` is missing, so the known set of
canonical full codes (form `alpha2_REGION`) is represented by the
representative entries named in the spec and the client docstrings. -/
def LANGUAGES : List String :=
  ["en_US", "fr_FR", "de_DE", "es_ES", "zh_CN"]

/-- Modelled from the spec: `constants.py` is missing; alpha-1 code to
canonical full code table, representative entries. -/
def ALPHA1_TO_FULL : List (String × String) :=
  [("en", "en_US"), ("fr", "fr_FR"), ("de", "de_DE"),
   ("es", "es_ES"), ("zh", "zh_CN")]

/-- Modelled from the spec: `constants.py` is missing; lowercase English
language name to canonical full code table, representative entries. -/
def LANGCODES : List (String × String) :=
  [("english", "en_US"), ("french", "fr_FR"), ("german", "de_DE"),
   ("spanish", "es_ES"), ("chinese", "zh_CN")]

/-- Modelled from the spec: `constants.py` is missing; the translate endpoint
URL (its exact value is irrelevant to every claim). -/
def TRANSLATE_URL : String := "translateEndpoint"

/-- Lookup in an association list: the embedding of a Python dict access
`tbl[key]` on tables with distinct keys. -/
def tlookup : List (String × String) → String → Option String
  | [], _ => none
  | (k, v) :: rest, q => if q = k then some v else tlookup rest q

/-- Embedding of Python `str.lower()` on the ASCII alphabet (the only
characters the language tables use): lowercase every character. -/
def strToLower (s : String) : String :=
  ⟨s.data.map Char.toLower⟩

/-- Decidable equality on `Except`, needed to evaluate client results
on concrete inputs. -/
instance {ε α : Type} [DecidableEq ε] [DecidableEq α] :
    DecidableEq (Except ε α) := fun a b =>
  match a, b with
  | .ok x, .ok y =>
    if h : x = y then isTrue (by rw [h])
    else isFalse (by intro he; cases he; exact h rfl)
  | .error x, .error y =>
    if h : x = y then isTrue (by rw [h])
    else isFalse (by intro he; cases he; exact h rfl)
  | .ok _, .error _ => isFalse (by intro he; cases he)
  | .error _, .ok _ => isFalse (by intro he; cases he)

/-- Embedding of `_normalize_lang` (client.py lines 26-56): literal `auto`
first, then exact membership in `LANGUAGES`, then the alpha-1 table, then the
lowercased input in the English-name table; otherwise an error. -/
def normalize_lang (code : String) : Except String String :=
  if code = "auto" then .ok "auto"
  else if code ∈ LANGUAGES then .ok code
  else
    match tlookup ALPHA1_TO_FULL code with
    | some full => .ok full
    | none =>
      match tlookup LANGCODES (strToLower code) with
      | some full => .ok full
      | none => .error ("Unknown language code or name: " ++ code)

/-- Error taxonomy of the spec: the ValueError of `_normalize_lang` is
`UnresolvedLanguage`; the generic Exception raised on HTTP/remote failures is
`RemoteAPIError`. -/
inductive LingvaError where
  | unresolvedLanguage (msg : String)
  | remoteAPIError (msg : String)
deriving DecidableEq

/-- JSON body of a translate/detect response, restricted to the fields the
client reads: `err`, `result`, `from`, `sourceLanguage`, `score`. -/
structure ApiBody where
  err : Option String := none
  result : Option String := none
  fromField : Option String := none
  sourceLanguage : Option String := none
  score : Option Rat := none
deriving DecidableEq

/-- An HTTP response: status code plus parsed JSON body. -/
structure TransResponse where
  status : Nat
  body : ApiBody
deriving DecidableEq

/-- Python truthiness of `data.get("err")` for a string-valued field:
present and non-empty. -/
def errTruthy : Option String → Bool
  | none => false
  | some s => !s.isEmpty

/-- Embedding of `models.Translated`: plain data carrier. -/
structure Translated where
  src : String
  dest : String
  origin : String
  text : String
  extra_data : Option ApiBody := none
deriving DecidableEq

/-- Embedding of `models.Detected`: plain data carrier. -/
structure Detected where
  lang : String
  confidence : Option Rat := none
deriving DecidableEq

/-- Form payload built by `translate` (client.py lines 248-250) and `detect`
(line 299): `to`, `text`, and an optional `from`. -/
structure Payload where
  toField : String
  text : String
  fromField : Option String
deriving DecidableEq

/-- Payload of a single translate call: `to` set to dest_code and `text` set
to the text, plus `from` set to src_code only when src_code is not `auto`. -/
def translatePayload (text destCode srcCode : String) : Payload :=
  { toField := destCode, text := text,
    fromField := if srcCode ≠ "auto" then some srcCode else none }

/-- Payload of a detect call (client.py line 299): fixed destination `en_US`
and never a `from` field. -/
def detectPayload (text : String) : Payload :=
  { toField := "en_US", text := text, fromField := none }

/-- URL used by detect (client.py line 300): the translate endpoint with the
detection-mode query flag. -/
def detectUrl : String := TRANSLATE_URL ++ "?platform=dp"

/-- Response handling of a single translate call (client.py lines 252-283),
given the already-normalized source code `srcCode`. -/
def translateResp (raiseExc : Bool) (text dest src srcCode : String)
    (resp : TransResponse) : Except LingvaError Translated :=
  if resp.status ≠ 200 then
    if raiseExc then
      .error (.remoteAPIError ("Lingvanex API returned status " ++ toString resp.status))
    else
      .ok { src := src, dest := dest, origin := text, text := "",
            extra_data := some resp.body }
  else if errTruthy resp.body.err then
    if raiseExc then
      .error (.remoteAPIError ("Lingvanex API error: " ++ resp.body.err.getD ""))
    else
      .ok { src := src, dest := dest, origin := text, text := "",
            extra_data := some resp.body }
  else
    let translatedText := resp.body.result.getD ""
    let detectedSrc := resp.body.fromField.getD srcCode
    let srcOut := if srcCode = "auto" ∧ detectedSrc ≠ "" then detectedSrc else src
    .ok { src := srcOut, dest := dest, origin := text, text := translatedText,
          extra_data := some resp.body }

/-- Single translate call without session state: normalize `dest`, then
`src` (client.py lines 243-244), then handle the response. -/
def translateOne (raiseExc : Bool) (text dest src : String)
    (resp : TransResponse) : Except LingvaError Translated :=
  match normalize_lang dest with
  | .error m => .error (.unresolvedLanguage m)
  | .ok _ =>
    match normalize_lang src with
    | .error m => .error (.unresolvedLanguage m)
    | .ok srcCode => translateResp raiseExc text dest src srcCode resp

/-- Response handling of a single detect call (client.py lines 302-322). -/
def detectResp (raiseExc : Bool) (resp : TransResponse) :
    Except LingvaError Detected :=
  if resp.status ≠ 200 then
    if raiseExc then
      .error (.remoteAPIError ("Lingvanex API returned status " ++ toString resp.status))
    else
      .ok { lang := "unknown", confidence := none }
  else if errTruthy resp.body.err then
    if raiseExc then
      .error (.remoteAPIError ("Lingvanex API error: " ++ resp.body.err.getD ""))
    else
      .ok { lang := "unknown", confidence := none }
  else
    let lang :=
      match resp.body.sourceLanguage with
      | some s => if s ≠ "" then s else resp.body.fromField.getD "unknown"
      | none => resp.body.fromField.getD "unknown"
    .ok { lang := lang, confidence := resp.body.score }

/-- Sequential effectful map: the semantics of the Python list comprehension
`[await self.translate(item, ...) for item in text]`, which awaits each item
in order and propagates the first exception. -/
def exceptMapSeq {α β ε : Type} (g : α → Except ε β) : List α → Except ε (List β)
  | [] => .ok []
  | x :: xs =>
    match g x with
    | .error e => .error e
    | .ok y =>
      match exceptMapSeq g xs with
      | .error e => .error e
      | .ok ys => .ok (y :: ys)

/-- List form of translate (client.py lines 240-241): per-item calls, each
item paired with the response the server returns for it. -/
def translateMany (raiseExc : Bool) (dest src : String)
    (f : String → TransResponse) (texts : List String) :
    Except LingvaError (List Translated) :=
  exceptMapSeq (fun t => translateOne raiseExc t dest src (f t)) texts

/-- List form of detect (client.py lines 294-295). -/
def detectMany (raiseExc : Bool) (f : String → TransResponse)
    (texts : List String) : Except LingvaError (List Detected) :=
  exceptMapSeq (fun t => detectResp raiseExc (f t)) texts

/-- An aiohttp ClientSession, reduced to its liveness flag. -/
structure MSession where
  closed : Bool
deriving DecidableEq

/-- Kind of connector installed in the session: a plain TCP connector or a
SOCKS tunneling ProxyConnector built from a socks4/socks5 URL. -/
inductive ConnectorKind where
  | tcp
  | socks (url : String)
deriving DecidableEq

/-- A connector: its kind, its connection limit, and its liveness flag. -/
structure MConnector where
  kind : ConnectorKind
  limit : Nat
  closed : Bool
deriving DecidableEq

/-- Mutable state of a `Translator` instance: the fields of `__init__`
(client.py lines 103-131) that the session lifecycle reads and writes. -/
structure ClientState where
  raiseException : Bool
  connectorLimit : Nat
  proxy : Option String
  proxyAuth : Option (String × String)
  proxyUrl : Option String
  useProxyConnector : Bool
  connector : Option MConnector
  session : Option MSession
deriving DecidableEq

/-- Byte-wise list prefix test, the embedding of `str.startswith`. -/
def isPre : List Char → List Char → Bool
  | [], _ => true
  | _ :: _, [] => false
  | a :: as, b :: bs => a == b && isPre as bs

/-- Embedding of Python `s.startswith(pat)`. -/
def strStartsWith (s pat : String) : Bool :=
  isPre pat.data s.data

/-- Test of `proxy.startswith("socks5") or proxy.startswith("socks4")`
(client.py lines 115 and 201). -/
def startsWithSocks (p : String) : Bool :=
  strStartsWith p "socks5" || strStartsWith p "socks4"

/-- Embedding of `Translator.__init__` (client.py lines 90-131): a SOCKS URL
installs a tunneling connector; any other proxy URL is stored for per-request
use with optional basic auth; otherwise a plain TCP connector; then a live
session is created. -/
def initClient (raiseExc : Bool) (limit : Nat) (proxy : Option String)
    (proxyAuth : Option (String × String)) : ClientState :=
  let base : ClientState :=
    { raiseException := raiseExc, connectorLimit := limit, proxy := none,
      proxyAuth := none, proxyUrl := proxy, useProxyConnector := false,
      connector := none, session := none }
  let st :=
    match proxy with
    | some p =>
      if startsWithSocks p then
        { base with connector := some ⟨.socks p, limit, false⟩,
                    useProxyConnector := true }
      else
        { base with proxy := some p, proxyAuth := proxyAuth,
                    connector := some ⟨.tcp, limit, false⟩ }
    | none => { base with connector := some ⟨.tcp, limit, false⟩ }
  { st with session := some ⟨false⟩ }

/-- Embedding of `Translator._ensure_session` (client.py lines 140-150): when
the session is absent or closed, install a fresh plain TCP connector bounded
by the configured limit and a fresh session; otherwise leave the state
untouched. -/
def ensureSession (st : ClientState) : ClientState :=
  match st.session with
  | none =>
    { st with connector := some ⟨.tcp, st.connectorLimit, false⟩,
              session := some ⟨false⟩ }
  | some s =>
    if s.closed then
      { st with connector := some ⟨.tcp, st.connectorLimit, false⟩,
                session := some ⟨false⟩ }
    else st

/-- Embedding of `Translator.close` (client.py lines 158-176): best-effort
close of session and connector with all exceptions swallowed, then both
references cleared. It is a total function: it never fails. -/
def close (st : ClientState) : ClientState :=
  { st with session := none, connector := none }

/-- Embedding of `Translator.change_proxy` (client.py lines 178-217): tear
down the current session and connector, reset the proxy fields, rebuild the
connector by the same rule as `__init__`, and create a fresh session. -/
def changeProxy (st : ClientState) (proxy : Option String)
    (proxyAuth : Option (String × String)) : ClientState :=
  let base : ClientState :=
    { st with session := none, connector := none, proxy := none,
              proxyAuth := none, proxyUrl := proxy,
              useProxyConnector := false }
  let st2 :=
    match proxy with
    | some p =>
      if startsWithSocks p then
        { base with connector := some ⟨.socks p, st.connectorLimit, false⟩,
                    useProxyConnector := true }
      else
        { base with proxy := some p, proxyAuth := proxyAuth,
                    connector := some ⟨.tcp, st.connectorLimit, false⟩ }
    | none => { base with connector := some ⟨.tcp, st.connectorLimit, false⟩ }
  { st2 with session := some ⟨false⟩ }

/-- Single translate call with session state (client.py lines 230-283):
`dest` then `src` are normalized before the session is touched; only when
both succeed is `_ensure_session` run and the request issued. -/
def clientTranslate (st : ClientState) (text dest src : String)
    (resp : TransResponse) : ClientState × Except LingvaError Translated :=
  match normalize_lang dest with
  | .error m => (st, .error (.unresolvedLanguage m))
  | .ok _ =>
    match normalize_lang src with
    | .error m => (st, .error (.unresolvedLanguage m))
    | .ok srcCode =>
      (ensureSession st, translateResp st.raiseException text dest src srcCode resp)

/-- Single detect call with session state (client.py lines 285-322). -/
def clientDetect (st : ClientState) (resp : TransResponse) :
    ClientState × Except LingvaError Detected :=
  (ensureSession st, detectResp st.raiseException resp)

/-! ## Helper lemmas -/

/-- A key whose lookup succeeds is among the keys of the table. -/
theorem mem_keys_of_tlookup :
    ∀ (tbl : List (String × String)) {k v : String},
      tlookup tbl k = some v → k ∈ tbl.map Prod.fst := by
  intro tbl
  induction tbl with
  | nil => intro k v h; simp [tlookup] at h
  | cons p rest ih =>
    intro k v h
    obtain ⟨a, b⟩ := p
    simp only [tlookup] at h
    by_cases e : k = a
    · simp [e]
    · rw [if_neg e] at h
      exact List.mem_cons_of_mem _ (ih h)

/-- From a computed-none lookup, a some-lookup hypothesis is absurd. -/
theorem tlookup_none_elim {tbl : List (String × String)} {k c : String}
    {P : Prop} (e : tlookup tbl k = none) (h : tlookup tbl k = some c) : P := by
  rw [e] at h
  exact Option.noConfusion h

/-! ## Claims -/

/-- C2: the normalizer resolves, in fixed order, the literal `auto` to
itself, every canonical code to itself, every alpha-1 code to its canonical
code, and every input whose lowercase form is a known English name to that
canonical code recorded for that name. -/
theorem normalize_lang_resolution :
    normalize_lang "auto" = .ok "auto" ∧
    (∀ c, c ∈ LANGUAGES → normalize_lang c = .ok c) ∧
    (∀ a c, (a, c) ∈ ALPHA1_TO_FULL → normalize_lang a = .ok c) ∧
    (∀ n c, tlookup LANGCODES (strToLower n) = some c → normalize_lang n = .ok c) := by
  refine ⟨by decide, ?_, ?_, ?_⟩
  · intro c h
    fin_cases h <;> decide
  · intro a c h
    fin_cases h <;> decide
  · intro n c h
    by_cases h1 : n = "auto"
    · subst h1
      exact tlookup_none_elim (by decide) h
    by_cases h2 : n ∈ LANGUAGES
    · fin_cases h2 <;> exact tlookup_none_elim (by decide) h
    by_cases h3 : n ∈ ALPHA1_TO_FULL.map Prod.fst
    · fin_cases h3 <;> exact tlookup_none_elim (by decide) h
    · have ha : tlookup ALPHA1_TO_FULL n = none := by
        cases hl : tlookup ALPHA1_TO_FULL n with
        | none => rfl
        | some v => exact absurd (mem_keys_of_tlookup _ hl) h3
      simp only [normalize_lang, if_neg h1, if_neg h2, ha, h]

/-- Witness for C2 at concrete inputs: a canonical code, an alpha-1 code and
an uppercase English name. -/
theorem normalize_lang_resolution_witness :
    normalize_lang "en_US" = .ok "en_US" ∧
    normalize_lang "fr" = .ok "fr_FR" ∧
    normalize_lang "FRENCH" = .ok "fr_FR" :=
  ⟨normalize_lang_resolution.2.1 "en_US" (by decide),
   normalize_lang_resolution.2.2.1 "fr" "fr_FR" (by decide),
   normalize_lang_resolution.2.2.2 "FRENCH" "fr_FR" (by decide)⟩

/-- Success of a sequential effectful map: the output has the length of the
input list
and its i-th element is the result of the call on the i-th input. -/
theorem exceptMapSeq_ok_spec {α β ε : Type} (g : α → Except ε β) :
    ∀ (l : List α) (out : List β), exceptMapSeq g l = .ok out →
      out.length = l.length ∧
      ∀ i (hi : i < l.length) (ho : i < out.length),
        g (l.get ⟨i, hi⟩) = .ok (out.get ⟨i, ho⟩) := by
  intro l
  induction l with
  | nil =>
    intro out h
    simp only [exceptMapSeq] at h
    cases h
    exact ⟨rfl, fun i hi => absurd hi (by simp)⟩
  | cons x xs ih =>
    intro out h
    simp only [exceptMapSeq] at h
    cases hg : g x with
    | error e =>
      rw [hg] at h
      exact Except.noConfusion h
    | ok y =>
      rw [hg] at h
      cases hs : exceptMapSeq g xs with
      | error e =>
        rw [hs] at h
        exact Except.noConfusion h
      | ok ys =>
        rw [hs] at h
        have h' : Except.ok (y :: ys) = (Except.ok out : Except ε (List β)) := h
        cases h'
        obtain ⟨hlen, hidx⟩ := ih ys hs
        refine ⟨by simp [hlen], ?_⟩
        intro i hi ho
        cases i with
        | zero => simpa using hg
        | succ j =>
          simpa using hidx j (by simpa using hi) (by simpa using ho)

/-- C4: the list forms of translate and detect return one result per input
text, in caller input order, each equal to the result of the corresponding
single-item call. -/
theorem list_form_order_preserving :
    (∀ (raiseExc : Bool) (dest src : String) (f : String → TransResponse)
       (texts : List String) (out : List Translated),
       translateMany raiseExc dest src f texts = .ok out →
       out.length = texts.length ∧
       ∀ i (hi : i < texts.length) (ho : i < out.length),
         translateOne raiseExc (texts.get ⟨i, hi⟩) dest src
           (f (texts.get ⟨i, hi⟩)) = .ok (out.get ⟨i, ho⟩)) ∧
    (∀ (raiseExc : Bool) (f : String → TransResponse)
       (texts : List String) (out : List Detected),
       detectMany raiseExc f texts = .ok out →
       out.length = texts.length ∧
       ∀ i (hi : i < texts.length) (ho : i < out.length),
         detectResp raiseExc (f (texts.get ⟨i, hi⟩)) = .ok (out.get ⟨i, ho⟩)) := by
  constructor
  · intro raiseExc dest src f texts out h
    exact exceptMapSeq_ok_spec _ texts out h
  · intro raiseExc f texts out h
    exact exceptMapSeq_ok_spec _ texts out h

/-- Response oracle used by the C4 witness: each text maps to a successful
response whose result doubles the text. -/
def w4f : String → TransResponse :=
  fun t => ⟨200, { result := some (t ++ t) }⟩

/-- Expected batch output of the C4 witness. -/
def w4out : List Translated :=
  [⟨"en", "fr_FR", "a", "aa", some { result := some "aa" }⟩,
   ⟨"en", "fr_FR", "b", "bb", some { result := some "bb" }⟩]

/-- Witness for C4 on the concrete batch `["a", "b"]`. -/
theorem list_form_order_preserving_witness :
    translateMany false "fr_FR" "en" w4f ["a", "b"] = .ok w4out ∧
    w4out.length = 2 ∧
    translateOne false "a" "fr_FR" "en" (w4f "a") = .ok (w4out.get ⟨0, by decide⟩) ∧
    translateOne false "b" "fr_FR" "en" (w4f "b") = .ok (w4out.get ⟨1, by decide⟩) := by
  have hm : translateMany false "fr_FR" "en" w4f ["a", "b"] = .ok w4out := by decide
  have h := list_form_order_preserving.1 false "fr_FR" "en" w4f ["a", "b"] w4out hm
  exact ⟨hm, h.1, h.2 0 (by decide) (by decide), h.2 1 (by decide) (by decide)⟩

/-- C1: when the response has status ≠ 200 or carries a truthy `err` field,
translate raises `RemoteAPIError` in raising mode, and in non-raising mode
returns (without failing) a `Translated` with empty text and the raw response
body attached. -/
theorem translate_failure_policy :
    ∀ (st : ClientState) (text dest src dc sc : String) (resp : TransResponse),
      normalize_lang dest = .ok dc → normalize_lang src = .ok sc →
      (resp.status ≠ 200 ∨ errTruthy resp.body.err = true) →
      (st.raiseException = true →
        ∃ m, (clientTranslate st text dest src resp).2 =
          .error (.remoteAPIError m)) ∧
      (st.raiseException = false →
        ∃ t, (clientTranslate st text dest src resp).2 = .ok t ∧
          t.text = "" ∧ t.extra_data = some resp.body) := by
  intro st text dest src dc sc resp hd hs hfail
  have h2 : (clientTranslate st text dest src resp).2 =
      translateResp st.raiseException text dest src sc resp := by
    simp [clientTranslate, hd, hs]
  by_cases hst : resp.status = 200
  · have herr : errTruthy resp.body.err = true := by
      rcases hfail with h | h
      · exact absurd hst h
      · exact h
    have h3 : translateResp st.raiseException text dest src sc resp =
        if st.raiseException then
          .error (.remoteAPIError ("Lingvanex API error: " ++ resp.body.err.getD ""))
        else
          .ok { src := src, dest := dest, origin := text, text := "",
                extra_data := some resp.body } := by
      unfold translateResp
      rw [if_neg (by simp [hst]), if_pos herr]
    constructor
    · intro hr
      exact ⟨_, by rw [h2, h3, if_pos hr]⟩
    · intro hr
      exact ⟨{ src := src, dest := dest, origin := text, text := "",
               extra_data := some resp.body },
             by rw [h2, h3, hr]; simp, rfl, rfl⟩
  · have h3 : translateResp st.raiseException text dest src sc resp =
        if st.raiseException then
          .error (.remoteAPIError ("Lingvanex API returned status " ++ toString resp.status))
        else
          .ok { src := src, dest := dest, origin := text, text := "",
                extra_data := some resp.body } := by
      unfold translateResp
      rw [if_pos hst]
    constructor
    · intro hr
      exact ⟨_, by rw [h2, h3, if_pos hr]⟩
    · intro hr
      exact ⟨{ src := src, dest := dest, origin := text, text := "",
               extra_data := some resp.body },
             by rw [h2, h3, hr]; simp, rfl, rfl⟩

/-- Witness for C1 at a concrete HTTP 500 response, in both modes. -/
theorem translate_failure_policy_witness :
    (∃ m, (clientTranslate (initClient true 100 none none) "Hello" "fr_FR" "auto"
      ⟨500, {}⟩).2 = .error (.remoteAPIError m)) ∧
    (∃ t, (clientTranslate (initClient false 100 none none) "Hello" "fr_FR" "auto"
      ⟨500, {}⟩).2 = .ok t ∧ t.text = "" ∧ t.extra_data = some {}) :=
  ⟨(translate_failure_policy (initClient true 100 none none) "Hello" "fr_FR"
      "auto" "fr_FR" "auto" ⟨500, {}⟩ (by decide) (by decide)
      (Or.inl (by decide))).1 (by decide),
   (translate_failure_policy (initClient false 100 none none) "Hello" "fr_FR"
      "auto" "fr_FR" "auto" ⟨500, {}⟩ (by decide) (by decide)
      (Or.inl (by decide))).2 (by decide)⟩

/-- C3: on a successful response, translate returns the `result` field of
the response as `text`; when the caller-supplied `src` normalized to `auto`,
the returned `src` is the detected source from the `from` field of the
response, otherwise it is the caller-supplied `src` unchanged. -/
theorem translate_success_fields :
    ∀ (st : ClientState) (text dest src dc sc r : String) (resp : TransResponse),
      normalize_lang dest = .ok dc → normalize_lang src = .ok sc →
      resp.status = 200 → errTruthy resp.body.err = false →
      resp.body.result = some r →
      ∃ t, (clientTranslate st text dest src resp).2 = .ok t ∧
        t.text = r ∧
        (∀ f, sc = "auto" → resp.body.fromField = some f → f ≠ "" → t.src = f) ∧
        (sc ≠ "auto" → t.src = src) := by
  intro st text dest src dc sc r resp hd hs h200 herr hres
  have h2 : (clientTranslate st text dest src resp).2 =
      translateResp st.raiseException text dest src sc resp := by
    simp [clientTranslate, hd, hs]
  have h3 : translateResp st.raiseException text dest src sc resp =
      .ok { src := if sc = "auto" ∧ resp.body.fromField.getD sc ≠ "" then
                     resp.body.fromField.getD sc else src,
            dest := dest, origin := text, text := r,
            extra_data := some resp.body } := by
    unfold translateResp
    rw [if_neg (by simp [h200]), if_neg (by simp [herr])]
    simp [hres]
  refine ⟨_, by rw [h2, h3], rfl, ?_, ?_⟩
  · intro f hauto hfrom hne
    subst hauto
    simp only [hfrom]
    simp [hne]
  · intro hne
    simp [hne]

/-- Witness for C3 at the round-trip example of the spec: `result="Bonjour"`,
detected `from="en_US"`, caller `src="auto"`. -/
theorem translate_success_fields_witness :
    ∃ t, (clientTranslate (initClient false 100 none none) "Hello" "fr_FR" "auto"
        ⟨200, { result := some "Bonjour", fromField := some "en_US" }⟩).2 = .ok t ∧
      t.text = "Bonjour" ∧ t.src = "en_US" := by
  obtain ⟨t, hok, htext, hauto, _⟩ :=
    translate_success_fields (initClient false 100 none none) "Hello" "fr_FR"
      "auto" "fr_FR" "auto" "Bonjour"
      ⟨200, { result := some "Bonjour", fromField := some "en_US" }⟩
      (by decide) (by decide) (by decide) (by decide) (by decide)
  exact ⟨t, hok, htext, hauto "en_US" rfl rfl (by decide)⟩

/-- C5: close never fails and is idempotent, and after any number of closes
the next `ensureSession` (run at the start of every public operation)
installs a fresh live session, so the client is usable again. -/
theorem close_idempotent_and_reusable :
    (∀ st, close (close st) = close st) ∧
    (∀ st n, (ensureSession (close^[n + 1] st)).session = some ⟨false⟩) := by
  constructor
  · intro st
    rfl
  · intro st n
    have hiter : close^[n + 1] st = close st := by
      induction n with
      | zero => rfl
      | succ m ihm =>
        rw [Function.iterate_succ_apply', ihm]
        rfl
    rw [hiter]
    rfl

/-- C6: detect posts the translate-style request at the translate endpoint
with the detection-mode flag, fixed destination `en_US` and no `from` field;
a failed response raises or yields `Detected("unknown", none)` per the raise
flag; a successful response yields `lang` from `sourceLanguage`, falling
back to `from` and then to `"unknown"`, with `confidence` equal to the
response score, absent when not provided. -/
theorem detect_contract :
    (∀ text, (detectPayload text).toField = "en_US" ∧
             (detectPayload text).fromField = none) ∧
    detectUrl = TRANSLATE_URL ++ "?platform=dp" ∧
    (∀ (raiseExc : Bool) (resp : TransResponse),
      resp.status ≠ 200 ∨ errTruthy resp.body.err = true →
      (raiseExc = true →
        ∃ m, detectResp raiseExc resp = .error (.remoteAPIError m)) ∧
      (raiseExc = false →
        detectResp raiseExc resp = .ok ⟨"unknown", none⟩)) ∧
    (∀ (raiseExc : Bool) (resp : TransResponse),
      resp.status = 200 → errTruthy resp.body.err = false →
      ∃ d, detectResp raiseExc resp = .ok d ∧
        d.confidence = resp.body.score ∧
        (∀ s, resp.body.sourceLanguage = some s → s ≠ "" → d.lang = s) ∧
        (resp.body.sourceLanguage = none →
          ∀ f, resp.body.fromField = some f → d.lang = f) ∧
        (resp.body.sourceLanguage = none → resp.body.fromField = none →
          d.lang = "unknown")) := by
  refine ⟨fun text => ⟨rfl, rfl⟩, rfl, ?_, ?_⟩
  · intro raiseExc resp hfail
    by_cases hst : resp.status = 200
    · have herr : errTruthy resp.body.err = true := by
        rcases hfail with h | h
        · exact absurd hst h
        · exact h
      have h3 : detectResp raiseExc resp =
          if raiseExc then
            .error (.remoteAPIError ("Lingvanex API error: " ++ resp.body.err.getD ""))
          else .ok ⟨"unknown", none⟩ := by
        unfold detectResp
        rw [if_neg (by simp [hst]), if_pos herr]
      constructor
      · intro hr
        exact ⟨_, by rw [h3, if_pos hr]⟩
      · intro hr
        rw [h3, hr]
        simp
    · have h3 : detectResp raiseExc resp =
          if raiseExc then
            .error (.remoteAPIError ("Lingvanex API returned status " ++ toString resp.status))
          else .ok ⟨"unknown", none⟩ := by
        unfold detectResp
        rw [if_pos hst]
      constructor
      · intro hr
        exact ⟨_, by rw [h3, if_pos hr]⟩
      · intro hr
        rw [h3, hr]
        simp
  · intro raiseExc resp h200 herr
    have h3 : detectResp raiseExc resp =
        .ok ⟨match resp.body.sourceLanguage with
             | some s => if s ≠ "" then s else resp.body.fromField.getD "unknown"
             | none => resp.body.fromField.getD "unknown",
             resp.body.score⟩ := by
      unfold detectResp
      rw [if_neg (by simp [h200]), if_neg (by simp [herr])]
    refine ⟨_, h3, rfl, ?_, ?_, ?_⟩
    · intro s hsrc hne
      simp only [hsrc]
      simp [hne]
    · intro hnone f hfrom
      simp [hnone, hfrom]
    · intro hnone hfnone
      simp [hnone, hfnone]

/-- Witness for C6 at concrete responses: an HTTP 500 in both modes, and a
success carrying `sourceLanguage="fr_FR"` and score 1. -/
theorem detect_contract_witness :
    (∃ m, detectResp true ⟨500, {}⟩ = .error (.remoteAPIError m)) ∧
    detectResp false ⟨500, {}⟩ = .ok ⟨"unknown", none⟩ ∧
    (∃ d, detectResp false
        ⟨200, { sourceLanguage := some "fr_FR", score := some 1 }⟩ = .ok d ∧
      d.confidence = some 1 ∧ d.lang = "fr_FR") := by
  refine ⟨(detect_contract.2.2.1 true ⟨500, {}⟩ (Or.inl (by decide))).1 rfl,
          (detect_contract.2.2.1 false ⟨500, {}⟩ (Or.inl (by decide))).2 rfl,
          ?_⟩
  obtain ⟨d, hok, hconf, hlang, _, _⟩ :=
    detect_contract.2.2.2 false
      ⟨200, { sourceLanguage := some "fr_FR", score := some 1 }⟩ rfl rfl
  exact ⟨d, hok, hconf, hlang "fr_FR" rfl (by decide)⟩

/-- C7: when src or dest resolves to no language, translate fails with
`UnresolvedLanguage` for every raise flag, leaves the client state untouched,
and its outcome does not depend on any response the network could return. -/
theorem unresolved_language_immediate :
    ∀ (st : ClientState) (text dest src : String) (resp resp2 : TransResponse),
      ((∃ m, normalize_lang dest = .error m) ∨
       (∃ m, normalize_lang src = .error m)) →
      (∃ m, clientTranslate st text dest src resp =
        (st, .error (.unresolvedLanguage m))) ∧
      clientTranslate st text dest src resp =
        clientTranslate st text dest src resp2 := by
  intro st text dest src resp resp2 h
  cases hd : normalize_lang dest with
  | error m =>
    exact ⟨⟨m, by simp [clientTranslate, hd]⟩, by simp [clientTranslate, hd]⟩
  | ok dc =>
    cases hs : normalize_lang src with
    | error m =>
      exact ⟨⟨m, by simp [clientTranslate, hd, hs]⟩,
             by simp [clientTranslate, hd, hs]⟩
    | ok sc =>
      exfalso
      rcases h with ⟨m, hm⟩ | ⟨m, hm⟩
      · rw [hd] at hm
        exact Except.noConfusion hm
      · rw [hs] at hm
        exact Except.noConfusion hm

/-- Witness for C7 at the garbage language `zzz`, with two different mock
responses. -/
theorem unresolved_language_immediate_witness :
    (∃ m, clientTranslate (initClient false 100 none none) "hi" "zzz" "auto"
      ⟨200, { result := some "x" }⟩ =
      (initClient false 100 none none, .error (.unresolvedLanguage m))) ∧
    clientTranslate (initClient false 100 none none) "hi" "zzz" "auto"
      ⟨200, { result := some "x" }⟩ =
    clientTranslate (initClient false 100 none none) "hi" "zzz" "auto"
      ⟨500, {}⟩ :=
  unresolved_language_immediate (initClient false 100 none none) "hi" "zzz"
    "auto" ⟨200, { result := some "x" }⟩ ⟨500, {}⟩
    (Or.inl ⟨"Unknown language code or name: zzz", by decide⟩)

/-- C8 counterexample: with dest supplied as the English name `french`, a
successful translate returns a Translated whose dest is the verbatim string
`"french"`, which is not a canonical code of the known set. -/
theorem translated_dest_not_canonical :
    (clientTranslate (initClient false 100 none none) "Hello" "french" "auto"
        ⟨200, { result := some "Bonjour", fromField := some "en_US" }⟩).2 =
      .ok ⟨"en_US", "french", "Hello", "Bonjour",
           some { result := some "Bonjour", fromField := some "en_US" }⟩ ∧
    "french" ∉ LANGUAGES := by
  exact ⟨by decide, by decide⟩

/-- C8 amended: every Translated returned by translate (successful or
degraded) carries the caller-supplied `dest` verbatim — canonical only when
the caller already passed a canonical code; the canonicalized code goes into
the `to` field of the request payload instead. -/
theorem translated_dest_echoes_input :
    (∀ (st : ClientState) (text dest src : String) (resp : TransResponse)
       (t : Translated),
      (clientTranslate st text dest src resp).2 = .ok t → t.dest = dest) ∧
    (∀ text destCode srcCode,
      (translatePayload text destCode srcCode).toField = destCode) := by
  constructor
  · intro st text dest src resp t h
    cases hd : normalize_lang dest with
    | error m => simp [clientTranslate, hd] at h
    | ok dc =>
      cases hs : normalize_lang src with
      | error m => simp [clientTranslate, hd, hs] at h
      | ok sc =>
        have h' : translateResp st.raiseException text dest src sc resp = .ok t := by
          simpa [clientTranslate, hd, hs] using h
        unfold translateResp at h'
        split at h'
        · split at h'
          · exact Except.noConfusion h'
          · injection h' with h''
            rw [← h'']
        · split at h'
          · split at h'
            · exact Except.noConfusion h'
            · injection h' with h''
              rw [← h'']
          · injection h' with h''
            rw [← h'']
  · intro text destCode srcCode
    rfl

/-- Witness for the amended C8 claim at a concrete degraded call. -/
theorem translated_dest_echoes_input_witness :
    (⟨"auto", "german", "Hi", "",
      some ({ err := some "boom" } : ApiBody)⟩ : Translated).dest = "german" :=
  translated_dest_echoes_input.1 (initClient false 100 none none) "Hi"
    "german" "auto" ⟨200, { err := some "boom" }⟩
    ⟨"auto", "german", "Hi", "", some { err := some "boom" }⟩ (by decide)

/-- C9 counterexample: the client does not validate the score range; a
response with score 2 yields a Detected whose confidence is 2, outside
[0, 1]. -/
theorem detect_confidence_out_of_range :
    detectResp false ⟨200, { sourceLanguage := some "en_US", score := some 2 }⟩ =
      .ok ⟨"en_US", some 2⟩ ∧ ¬((2 : Rat) ≤ 1) := by
  exact ⟨by decide, by decide⟩

/-- C9 amended: every Detected returned by detect has confidence either
absent or exactly the score of the response; in particular it lies in [0, 1]
whenever that score does — the client itself never checks the
range. -/
theorem detect_confidence_passthrough :
    ∀ (raiseExc : Bool) (resp : TransResponse) (d : Detected),
      detectResp raiseExc resp = .ok d →
      (d.confidence = none ∨ d.confidence = resp.body.score) ∧
      ((∀ q, resp.body.score = some q → 0 ≤ q ∧ q ≤ 1) →
        ∀ q, d.confidence = some q → 0 ≤ q ∧ q ≤ 1) := by
  intro raiseExc resp d h
  unfold detectResp at h
  split at h
  · split at h
    · exact Except.noConfusion h
    · injection h with h'
      refine ⟨Or.inl (by rw [← h']), ?_⟩
      intro _ q hq
      rw [← h'] at hq
      exact Option.noConfusion hq
  · split at h
    · split at h
      · exact Except.noConfusion h
      · injection h with h'
        refine ⟨Or.inl (by rw [← h']), ?_⟩
        intro _ q hq
        rw [← h'] at hq
        exact Option.noConfusion hq
    · injection h with h'
      refine ⟨Or.inr (by rw [← h']), ?_⟩
      intro hrange q hq
      rw [← h'] at hq
      exact hrange q hq

/-- Witness for the amended C9 claim at a concrete in-range score. -/
theorem detect_confidence_passthrough_witness :
    ((⟨"en_US", some 1⟩ : Detected).confidence = none ∨
     (⟨"en_US", some 1⟩ : Detected).confidence =
       ({ sourceLanguage := some "en_US", score := some 1 } : ApiBody).score) ∧
    (0 : Rat) ≤ 1 ∧ (1 : Rat) ≤ 1 := by
  have h := detect_confidence_passthrough false
    ⟨200, { sourceLanguage := some "en_US", score := some 1 }⟩
    ⟨"en_US", some 1⟩ (by decide)
  exact ⟨h.1, h.2 (by intro q hq; cases hq; constructor <;> decide)
               1 rfl⟩

/-- C10: a session recreated by `ensureSession` always gets a plain TCP
connector bounded by the configured limit: a client constructed with, or
reconfigured to, a socks4/socks5 proxy silently loses its SOCKS tunneling
connector after close and recreation, while a per-request HTTP proxy (and
the limit) is preserved. -/
theorem ensure_session_drops_socks_connector :
    (∀ (raiseExc : Bool) (limit : Nat) (url : String)
       (auth : Option (String × String)),
      startsWithSocks url = true →
      (initClient raiseExc limit (some url) auth).connector =
        some ⟨.socks url, limit, false⟩ ∧
      (ensureSession (close (initClient raiseExc limit (some url) auth))).connector =
        some ⟨.tcp, limit, false⟩) ∧
    (∀ (st : ClientState) (url : String) (auth : Option (String × String)),
      startsWithSocks url = true →
      (changeProxy st (some url) auth).connector =
        some ⟨.socks url, st.connectorLimit, false⟩ ∧
      (ensureSession (close (changeProxy st (some url) auth))).connector =
        some ⟨.tcp, st.connectorLimit, false⟩) ∧
    (∀ (raiseExc : Bool) (limit : Nat) (url : String)
       (auth : Option (String × String)),
      startsWithSocks url = false →
      (ensureSession (close (initClient raiseExc limit (some url) auth))).proxy =
        some url ∧
      (ensureSession (close (initClient raiseExc limit (some url) auth))).connector =
        some ⟨.tcp, limit, false⟩) := by
  refine ⟨?_, ?_, ?_⟩
  · intro raiseExc limit url auth hsocks
    constructor
    · simp [initClient, hsocks]
    · simp [ensureSession, close, initClient, hsocks]
  · intro st url auth hsocks
    constructor
    · simp [changeProxy, hsocks]
    · simp [ensureSession, close, changeProxy, hsocks]
  · intro raiseExc limit url auth hsocks
    constructor
    · simp [ensureSession, close, initClient, hsocks]
    · simp [ensureSession, close, initClient, hsocks]

/-- Witness for C10 at a concrete SOCKS URL and a concrete HTTP proxy URL. -/
theorem ensure_session_drops_socks_connector_witness :
    (initClient false 7 (some "socks5://proxy:1080") none).connector =
      some ⟨.socks "socks5://proxy:1080", 7, false⟩ ∧
    (ensureSession (close (initClient false 7 (some "socks5://proxy:1080") none))).connector =
      some ⟨.tcp, 7, false⟩ ∧
    (ensureSession (close (initClient false 7 (some "http://proxy:8080") none))).proxy =
      some "http://proxy:8080" := by
  have h1 := ensure_session_drops_socks_connector.1 false 7 "socks5://proxy:1080"
    none (by decide)
  have h3 := ensure_session_drops_socks_connector.2.2 false 7 "http://proxy:8080"
    none (by decide)
  exact ⟨h1.1, h1.2, h3.1⟩

end Lingvatrans
